import Mathlib

/-!
Verification development for the Munich/Augsburg apartment-search dashboard
(`streamlit_app.py`).  The Python module is embedded shallowly:

* module constants `MAX_PRICE`, `MIN_ROOMS`, `MIN_AREA`, `CITIES` become Lean
  constants;
* the listing record (the `apartment` dict) becomes the structure `Apartment`
  (the debugging-only `raw_text` entry, present only on ImmoScout rows and
  never consulted by any logic, is omitted);
* Python `re.search` on the hard-coded pattern strings and Python `float`
  parsing are the only unembeddable primitives (a full regex engine and IEEE
  floats); they are abstracted as the function-valued fields of `Extractors`,
  and every claim is proved for all instantiations of those fields.  All
  remaining control flow (pattern iteration order, conversion fallbacks,
  zero sentinels, criteria filtering, the five-listing cap, the mock-data
  generator, the aggregation loop of `main`, and duplicate dropping) is
  embedded concretely;
* exceptions are modelled with `Except` / `Option` (`Option.none` marks a
  raised exception that the caller may catch), randomness by explicit seed
  arguments (`random.randint(a, b)` becomes `a + seed % (b - a + 1)`,
  `random.choice xs` becomes indexing by `seed % xs.length`), and fetched
  HTTP responses by the explicit `FetchResult` input list.
-/

/-- `MAX_PRICE = 750000` (line 15). -/
def MAX_PRICE : Int := 750000

/-- `MIN_ROOMS = 3` (line 16). -/
def MIN_ROOMS : Int := 3

/-- `MIN_AREA = 80` (line 17). -/
def MIN_AREA : Int := 80

/-- `CITIES = ['München', 'Augsburg']` (line 18). -/
def CITIES : List String := ["München", "Augsburg"]

/-- The listing record built by the parsers and the mock generator.
Prices and areas are `int` in the source (`int(float(...))`, `randint`),
rooms are Python floats restricted to halves; rooms are modelled as `ℚ`. -/
structure Apartment where
  title : String
  price : Int
  rooms : ℚ
  area : Int
  location : String
  city : String
  link : String
  source : String
  scraped_at : String
  deriving DecidableEq, Repr

/-- `meets_criteria` (lines 356-361): the acceptance predicate.  It reads the
module constants, not any per-call thresholds. -/
def meets_criteria (a : Apartment) : Bool :=
  decide (a.price ≤ MAX_PRICE) &&
  decide ((MIN_ROOMS : ℚ) ≤ a.rooms) &&
  decide (MIN_AREA ≤ a.area) &&
  decide (0 < a.price)

/-- The shared shape of the three field-extraction loops of
`parse_immoscout_listing_enhanced` (lines 208-216, 227-234, 245-252):
try each pattern in order; on a regex match attempt the numeric conversion;
on conversion failure fall through to the next pattern; if nothing succeeds
keep the zero default.  A pattern is modelled as the function sending the
text to the captured group of its first match, if any. -/
def extractField {α : Type} (patterns : List (String → Option String))
    (conv : String → Option α) (dflt : α) (text : String) : α :=
  match patterns with
  | [] => dflt
  | p :: rest =>
    match p text with
    | none => extractField rest conv dflt text
    | some g =>
      match conv g with
      | some v => v
      | none => extractField rest conv dflt text

/-- The abstracted Python primitives: the four price patterns, four room
patterns and four area patterns (as match-and-capture functions), and
`float` literal parsing.  `pyFloat s = none` models `float(s)` raising
(or a later `int()` failing on an infinity/NaN). -/
structure Extractors where
  pricePs : List (String → Option String)
  roomPs : List (String → Option String)
  areaPs : List (String → Option String)
  pyFloat : String → Option ℚ

/-- Python `int(...)` applied to a float value: truncation toward zero. -/
def pyTruncInt (q : ℚ) : Int := q.num.tdiv q.den

/-- Price conversion (lines 211-213):
`int(float(group.replace('.', '').replace(',', '.')))`. -/
def priceConv (E : Extractors) (s : String) : Option Int :=
  (E.pyFloat ((s.replace "." "").replace "," ".")).map pyTruncInt

/-- Rooms conversion (line 231): `float(group.replace(',', '.'))`. -/
def roomConv (E : Extractors) (s : String) : Option ℚ :=
  E.pyFloat (s.replace "," ".")

/-- Area conversion (line 249): `int(float(group.replace(',', '.')))`. -/
def areaConv (E : Extractors) (s : String) : Option Int :=
  (E.pyFloat (s.replace "," ".")).map pyTruncInt

/-- One listing node handed to `parse_immoscout_listing_enhanced`, reduced to
the data the parser reads from it: the node text (`listing.get_text()`),
the outcome of the title-selector loop (lines 191-197), the outcome of the
location-indicator loop (lines 265-274), and the `href` of the first anchor
(lines 255-258). -/
structure ListingNode where
  all_text : String
  titleRes : Option String
  locRes : Option String
  href : Option String

/-- Link normalisation (lines 258-262). -/
def linkOf : Option String → String
  | none => ""
  | some h =>
    if h.startsWith "/" then "https://www.immobilienscout24.de" ++ h
    else if h.startsWith "http" then h
    else ""

/-- `parse_immoscout_listing_enhanced` (lines 184-289) on one listing node.
The happy path always produces a record with `city` and `source` fixed; the
internal `try/except` (return `None`) is folded into the caller-side
exception case of `processListing`. -/
def parse_immoscout_listing_enhanced (E : Extractors) (city now : String)
    (node : ListingNode) : Apartment :=
  { title := node.titleRes.getD "N/A",
    price := extractField E.pricePs (priceConv E) 0 node.all_text,
    rooms := extractField E.roomPs (roomConv E) 0 node.all_text,
    area := extractField E.areaPs (areaConv E) 0 node.all_text,
    location := node.locRes.getD city,
    city := city,
    link := linkOf node.href,
    source := "ImmoScout24",
    scraped_at := now }

/-- The outcome of one URL-pattern attempt of `scrape_immobilienscout24`
(the page loop `range(1, 2)` runs exactly once, so one attempt fetches one
page): a non-200 status (lines 139-152), an exception anywhere in the
attempt (caught at line 159), or a 200 page whose selected listing nodes
each either parse to a node or raise (the per-listing `try/except` of
lines 131-138 together with `parse_…` returning `None` on its own
exception). -/
inductive FetchResult where
  | httpError (code : Nat)
  | exn (msg : String)
  | page (listings : List (Except String ListingNode))

/-- The body of the per-listing loop (lines 130-138): a raised exception
contributes nothing; a parsed apartment is kept only if it
`meets_criteria`. -/
def processListing (E : Extractors) (city now : String)
    (o : Except String ListingNode) : List Apartment :=
  match o with
  | Except.error _ => []
  | Except.ok nd =>
    let apt := parse_immoscout_listing_enhanced E city now nd
    if meets_criteria apt then [apt] else []

/-- Sequential processing of a run of listing outcomes. -/
def processListings (E : Extractors) (city now : String)
    (ls : List (Except String ListingNode)) : List Apartment :=
  ls.flatMap (processListing E city now)

/-- One fetched page: `listings[:5]` (line 130) then the per-listing loop. -/
def processPage (E : Extractors) (city now : String)
    (ls : List (Except String ListingNode)) : List Apartment :=
  processListings E city now (ls.take 5)

/-- Apartments contributed by one URL-pattern attempt. -/
def processAttempt (E : Extractors) (city now : String) :
    FetchResult → List Apartment
  | FetchResult.httpError _ => []
  | FetchResult.exn _ => []
  | FetchResult.page ls => processPage E city now ls

/-- The URL-pattern loop (lines 90-161): attempts run in order, and the
first attempt that yields any apartments ends the loop (line 156-157);
each response is consumed once — there is no retry. -/
def scrapeLoop (E : Extractors) (city now : String) :
    List FetchResult → List Apartment
  | [] => []
  | fr :: rest =>
    let r := processAttempt E city now fr
    if r.isEmpty then scrapeLoop E city now rest else r

/-- `scrape_immobilienscout24` (lines 55-182).  `max_price`, `min_rooms` and
`min_area` reach only the query-string construction (lines 69-81), i.e. the
fetched responses, which here are the explicit `attempts` input; they are
never consulted after fetching.  Total failure returns the initial empty
`apartments` list (line 182). -/
def scrape_immobilienscout24 (city : String)
    (max_price min_rooms min_area : Int) (E : Extractors) (now : String)
    (attempts : List FetchResult) : List Apartment :=
  scrapeLoop E city now attempts

/-- `base_titles` (lines 299-305). -/
def base_titles : List String :=
  ["Schöne 3-Zimmer-Wohnung mit Balkon",
   "Moderne 4-Zimmer Eigentumswohnung",
   "Helle 3.5-Zimmer-Wohnung in ruhiger Lage",
   "Renovierte 4-Zimmer-Wohnung mit Garten",
   "Gemütliche 3-Zimmer-Wohnung im Altbau"]

/-- `random.choice([3, 3.5, 4, 4.5, 5])` candidates (line 316). -/
def roomChoices : List ℚ := [3, 3.5, 4, 4.5, 5]

/-- The `locations` dict (lines 307-310); `none` models the `KeyError`
raised by `locations[city]` for a city outside the dict. -/
def locations (city : String) : Option (List String) :=
  if city = "München" then
    some ["Schwabing", "Maxvorstadt", "Haidhausen", "Bogenhausen", "Sendling"]
  else if city = "Augsburg" then
    some ["Innenstadt", "Göggingen", "Pfersee", "Lechhausen", "Oberhausen"]
  else none

/-- The random draws consumed by one mock apartment (lines 313-323). -/
structure MockSeed where
  titleSeed : Nat
  priceSeed : Nat
  roomsSeed : Nat
  areaSeed : Nat
  locSeed : Nat

/-- One candidate record of `scrape_mock_data` (lines 313-323).
`randint 400000 750000` draws one of 350001 values, `randint 80 140` one of
61 values; `random.choice` picks by index. -/
def mockApartment (city now : String) (locs : List String) (i : Nat)
    (s : MockSeed) : Apartment :=
  { title := base_titles.getD (s.titleSeed % base_titles.length) "" ++ " - " ++ city,
    price := 400000 + ((s.priceSeed % 350001 : Nat) : Int),
    rooms := roomChoices.getD (s.roomsSeed % roomChoices.length) 0,
    area := 80 + ((s.areaSeed % 61 : Nat) : Int),
    location := locs.getD (s.locSeed % locs.length) "" ++ ", " ++ city,
    city := city,
    link := "https://example.com/apartment-" ++ toString (i + 1),
    source := "Mock Data (for testing)",
    scraped_at := now }

/-- The candidates generated by the `for i in range(...)` loop (line 312). -/
def mockCandidates (city now : String) (locs : List String) (n : Nat)
    (seeds : Nat → MockSeed) : List Apartment :=
  (List.range n).map (fun i => mockApartment city now locs i (seeds i))

/-- `scrape_mock_data` (lines 295-328).  `randint(3, 8)` becomes
`3 + countSeed % 6` (so the loop always runs at least three times, and the
`locations[city]` lookup inside it is hoisted: it fails, raising `KeyError`
modelled by `none`, exactly when the city is not a dict key).  Candidates
are kept only if they pass `meets_criteria` (line 325). -/
def scrape_mock_data (city now : String) (countSeed : Nat)
    (seeds : Nat → MockSeed) : Option (List Apartment) :=
  (locations city).map (fun locs =>
    (mockCandidates city now locs (3 + countSeed % 6) seeds).filter meets_criteria)

/-- `scrape_immonet` (lines 330-341): both the `try` body and the `except`
handler just delegate to `scrape_mock_data` for the same city, so the call
behaves exactly like the mock generator (raising only when it does). -/
def scrape_immonet (city : String) (max_price min_rooms min_area : Int)
    (now : String) (countSeed : Nat) (seeds : Nat → MockSeed) :
    Option (List Apartment) :=
  scrape_mock_data city now countSeed seeds

/-- `scrape_ebay_kleinanzeigen` (lines 343-354): same shape as
`scrape_immonet`. -/
def scrape_ebay_kleinanzeigen (city : String)
    (max_price min_rooms min_area : Int) (now : String) (countSeed : Nat)
    (seeds : Nat → MockSeed) : Option (List Apartment) :=
  scrape_mock_data city now countSeed seeds

/-- The per-(city, source) environment of one task of `main`'s search loop:
the slider values passed to the scrapers and the nondeterministic inputs
(HTTP responses, random draws, the clock). -/
structure ScrapeEnv where
  max_price : Int
  min_rooms : Int
  min_area : Int
  E : Extractors
  now : String
  attempts : List FetchResult
  countSeed : Nat
  seeds : Nat → MockSeed

/-- One (city, source) iteration of `main`'s nested loop (lines 432-457). -/
structure SearchTask where
  city : String
  source : String
  env : ScrapeEnv

/-- The net contribution of one task to `all_apartments` (lines 436-454):
the dispatch on `test_mode` and `source`, with the surrounding `try/except`
turning a raised exception (an `Option.none` scraper result) into an empty
contribution. -/
def runTask (test_mode : Bool) (t : SearchTask) : List Apartment :=
  if test_mode then
    (scrape_mock_data t.city t.env.now t.env.countSeed t.env.seeds).getD []
  else if t.source = "ImmoScout24" then
    scrape_immobilienscout24 t.city t.env.max_price t.env.min_rooms
      t.env.min_area t.env.E t.env.now t.env.attempts
  else if t.source = "Immonet" then
    (scrape_immonet t.city t.env.max_price t.env.min_rooms t.env.min_area
      t.env.now t.env.countSeed t.env.seeds).getD []
  else if t.source = "eBay Kleinanzeigen" then
    (scrape_ebay_kleinanzeigen t.city t.env.max_price t.env.min_rooms
      t.env.min_area t.env.now t.env.countSeed t.env.seeds).getD []
  else []

/-- The aggregated `all_apartments` list after the search loop (line 450). -/
def all_apartments (test_mode : Bool) (tasks : List SearchTask) : List Apartment :=
  tasks.flatMap (runTask test_mode)

/-- The duplicate key of `df.drop_duplicates(subset=['title', 'price'])`. -/
def dupKey (a : Apartment) : String × Int := (a.title, a.price)

/-- Order-preserving first-kept deduplication, tracking the keys already
seen. -/
def ddAux : List (String × Int) → List Apartment → List Apartment
  | _, [] => []
  | seen, a :: rest =>
    if dupKey a ∈ seen then ddAux seen rest
    else a :: ddAux (dupKey a :: seen) rest

/-- `df.drop_duplicates(subset=['title', 'price'], keep='first')`
(line 466): row order is preserved and the first row of each
(title, price) key is kept. -/
def drop_duplicates (l : List Apartment) : List Apartment := ddAux [] l

/-- A degenerate extractor instantiation (no pattern ever matches, no float
ever parses), used to evaluate the pipeline on concrete inputs. -/
def sampleExtractors : Extractors :=
  { pricePs := [], roomPs := [], areaPs := [], pyFloat := fun _ => none }

/-- Constant random seeds, used to evaluate the mock generator concretely. -/
def sampleSeeds : Nat → MockSeed := fun _ => ⟨0, 0, 0, 0, 0⟩

/-- A concrete task environment. -/
def sampleEnv : ScrapeEnv :=
  { max_price := 750000, min_rooms := 3, min_area := 80,
    E := sampleExtractors, now := "2025-01-01 00:00", attempts := [],
    countSeed := 0, seeds := sampleSeeds }

/-- A concrete Munich mock-data task. -/
def sampleTask : SearchTask :=
  { city := "München", source := "ImmoScout24", env := sampleEnv }

/-- A task for a city outside the `locations` dict: its mock scrape raises
`KeyError`, so its net contribution is empty. -/
def badCityTask : SearchTask :=
  { city := "Nowhere", source := "Immonet", env := sampleEnv }

/-- A concrete listing record. -/
def aptA : Apartment :=
  { title := "A", price := 1, rooms := 3, area := 80, location := "p",
    city := "München", link := "", source := "s", scraped_at := "" }

/-- Same title and price as `aptA`, different location. -/
def aptB : Apartment :=
  { title := "A", price := 1, rooms := 3, area := 80, location := "q",
    city := "München", link := "", source := "s", scraped_at := "" }

/-- The concrete Munich mock listing produced with all-zero seeds. -/
def mockApt0 : Apartment :=
  mockApartment "München" "2025-01-01 00:00"
    ["Schwabing", "Maxvorstadt", "Haidhausen", "Bogenhausen", "Sendling"]
    0 ⟨0, 0, 0, 0, 0⟩

/-! ## Helper lemmas -/

/-- `extractField` returns the first pattern whose match converts, else the
default: characterisation used for C2. -/
theorem extractField_eq_head {α : Type} (ps : List (String → Option String))
    (conv : String → Option α) (d : α) (text : String) :
    extractField ps conv d text
      = ((ps.filterMap (fun p => (p text).bind conv)).head?).getD d := by
  induction ps with
  | nil => rfl
  | cons p rest ih =>
    cases hp : p text with
    | none => simp [extractField, hp, ih]
    | some g =>
      cases hc : conv g with
      | none => simp [extractField, hp, hc, ih]
      | some v => simp [extractField, hp, hc]

/-- Deduplication keeps a subsequence of the input. -/
theorem ddAux_sublist (l : List Apartment) :
    ∀ seen : List (String × Int), List.Sublist (ddAux seen l) l := by
  induction l with
  | nil => intro seen; simp [ddAux]
  | cons b rest ih =>
    intro seen
    by_cases hb : dupKey b ∈ seen
    · simp only [ddAux]
      rw [if_pos hb]
      exact (ih seen).cons b
    · simp only [ddAux]
      rw [if_neg hb]
      exact (ih (dupKey b :: seen)).cons₂ b

/-- Membership in the deduplicated list: exactly the first occurrence of
each not-yet-seen key survives. -/
theorem mem_ddAux (a : Apartment) (l : List Apartment) :
    ∀ seen : List (String × Int),
      a ∈ ddAux seen l ↔
        (dupKey a ∉ seen ∧
          l.find? (fun x => decide (dupKey x = dupKey a)) = some a) := by
  induction l with
  | nil => intro seen; simp [ddAux]
  | cons b rest ih =>
    intro seen
    by_cases hk : dupKey b = dupKey a
    · rw [List.find?_cons_of_pos _ (by simp [hk])]
      by_cases hb : dupKey b ∈ seen
      · simp only [ddAux]
        rw [if_pos hb, ih seen]
        constructor
        · rintro ⟨hna, -⟩
          exact absurd (hk ▸ hb) hna
        · rintro ⟨hna, -⟩
          exact absurd (hk ▸ hb) hna
      · simp only [ddAux]
        rw [if_neg hb, List.mem_cons, ih (dupKey b :: seen)]
        constructor
        · rintro (rfl | ⟨hna, hfind⟩)
          · exact ⟨hk ▸ hb, rfl⟩
          · exact absurd (by simp [hk]) hna
        · rintro ⟨hna, hba⟩
          injection hba with h
          exact Or.inl h.symm
    · rw [List.find?_cons_of_neg _ (by simp [hk])]
      by_cases hb : dupKey b ∈ seen
      · simp only [ddAux]
        rw [if_pos hb, ih seen]
      · simp only [ddAux]
        rw [if_neg hb, List.mem_cons, ih (dupKey b :: seen)]
        constructor
        · rintro (rfl | ⟨hna, hf⟩)
          · exact absurd rfl hk
          · exact ⟨fun h => hna (List.mem_cons_of_mem _ h), hf⟩
        · rintro ⟨hna, hf⟩
          refine Or.inr ⟨?_, hf⟩
          intro h
          rcases List.mem_cons.mp h with h1 | h2
          · exact hk h1.symm
          · exact hna h2

/-- No two survivors of deduplication share a key. -/
theorem ddAux_pairwise (l : List Apartment) :
    ∀ seen : List (String × Int),
      (ddAux seen l).Pairwise (fun a b => dupKey a ≠ dupKey b) := by
  induction l with
  | nil => intro seen; simp [ddAux]
  | cons b rest ih =>
    intro seen
    by_cases hb : dupKey b ∈ seen
    · simp only [ddAux]
      rw [if_pos hb]
      exact ih seen
    · simp only [ddAux]
      rw [if_neg hb]
      refine List.Pairwise.cons ?_ (ih (dupKey b :: seen))
      intro c hc hbc
      have hmem := (mem_ddAux c rest (dupKey b :: seen)).mp hc
      exact hmem.1 (by simp [hbc])

/-! ## Claim theorems -/

/-- C1: `meets_criteria` accepts a record exactly when its price is at most
`MAX_PRICE`, its rooms count is at least `MIN_ROOMS`, its area is at least
`MIN_AREA`, and its price is strictly positive; and its verdict depends on
nothing but the record's price, rooms and area fields (together with those
module-constant thresholds). -/
theorem criteria_filter_correct (a : Apartment) :
    (meets_criteria a = true ↔
      (a.price ≤ MAX_PRICE ∧ (MIN_ROOMS : ℚ) ≤ a.rooms ∧
        MIN_AREA ≤ a.area ∧ 0 < a.price))
    ∧ (∀ b : Apartment, a.price = b.price → a.rooms = b.rooms →
        a.area = b.area → meets_criteria a = meets_criteria b) := by
  constructor
  · simp [meets_criteria, and_assoc]
  · intro b hp hr ha
    simp [meets_criteria, hp, hr, ha]

theorem criteria_filter_correct_witness :
    meets_criteria
      { title := "w", price := 500000, rooms := 3, area := 90,
        location := "l", city := "München", link := "", source := "s",
        scraped_at := "" } = true ∧
    meets_criteria
      { title := "w", price := 500000, rooms := 3, area := 90,
        location := "l", city := "München", link := "", source := "s",
        scraped_at := "" }
      = meets_criteria
        { title := "other", price := 500000, rooms := 3, area := 90,
          location := "x", city := "Augsburg", link := "y", source := "z",
          scraped_at := "t" } := by
  constructor
  · exact (criteria_filter_correct
      { title := "w", price := 500000, rooms := 3, area := 90,
        location := "l", city := "München", link := "", source := "s",
        scraped_at := "" }).1.mpr (by decide)
  · exact (criteria_filter_correct
      { title := "w", price := 500000, rooms := 3, area := 90,
        location := "l", city := "München", link := "", source := "s",
        scraped_at := "" }).2
      { title := "other", price := 500000, rooms := 3, area := 90,
        location := "x", city := "Augsburg", link := "y", source := "z",
        scraped_at := "t" } rfl rfl rfl

/-- C2: for every input text, each of the three extracted fields of
`parse_immoscout_listing_enhanced` equals the converted captured group of
the first pattern (in the hard-coded order) that matches and converts
successfully, and is the zero sentinel when no pattern yields a convertible
match; the extractor is a total function, so extraction never raises. -/
theorem extractor_first_match (E : Extractors) (city now : String)
    (node : ListingNode) :
    (parse_immoscout_listing_enhanced E city now node).price
        = ((E.pricePs.filterMap
            (fun p => (p node.all_text).bind (priceConv E))).head?).getD 0
    ∧ (parse_immoscout_listing_enhanced E city now node).rooms
        = ((E.roomPs.filterMap
            (fun p => (p node.all_text).bind (roomConv E))).head?).getD 0
    ∧ (parse_immoscout_listing_enhanced E city now node).area
        = ((E.areaPs.filterMap
            (fun p => (p node.all_text).bind (areaConv E))).head?).getD 0 := by
  refine ⟨?_, ?_, ?_⟩ <;>
    simp [parse_immoscout_listing_enhanced, extractField_eq_head]

/-- C3: two rows are duplicates exactly when title and price coincide.
After `drop_duplicates` no two remaining rows share (title, price); the
result is a subsequence of the input; a row survives exactly when it is the
first row of the input carrying its (title, price) key; and a row is
removed only when an earlier row with the same title and price exists.
Rows differing in title or price are never merged (they carry different
keys, so both survive by the first-occurrence characterisation). -/
theorem dedup_title_price (l l1 l2 : List Apartment) (a : Apartment) :
    (drop_duplicates l).Pairwise (fun x y => dupKey x ≠ dupKey y)
    ∧ List.Sublist (drop_duplicates l) l
    ∧ (∀ x, x ∈ drop_duplicates l ↔
        l.find? (fun y => decide (dupKey y = dupKey x)) = some x)
    ∧ (a ∉ drop_duplicates (l1 ++ a :: l2) →
        ∃ b ∈ l1, dupKey b = dupKey a) := by
  refine ⟨ddAux_pairwise l [], ddAux_sublist l [], ?_, ?_⟩
  · intro x
    rw [drop_duplicates, mem_ddAux]
    simp
  · intro h
    by_contra hno
    push_neg at hno
    apply h
    rw [drop_duplicates, mem_ddAux]
    refine ⟨by simp, ?_⟩
    rw [List.find?_append]
    have h1 : (l1.find? fun y => decide (dupKey y = dupKey a)) = none := by
      rw [List.find?_eq_none]
      intro x hx
      simpa using hno x hx
    rw [h1, Option.none_or]
    exact List.find?_cons_of_pos _ (by simp)

theorem dedup_title_price_witness :
    aptA ∈ drop_duplicates [aptA, aptB]
    ∧ (∃ b ∈ [aptA], dupKey b = dupKey aptB) := by
  constructor
  · exact ((dedup_title_price [aptA, aptB] [] [] aptA).2.2.1 aptA).mpr
      (by decide)
  · exact (dedup_title_price [aptA, aptB] [aptA] [] aptB).2.2.2 (by decide)

/-- A raised per-listing exception contributes nothing. -/
theorem processListing_error (E : Extractors) (city now e : String) :
    processListing E city now (Except.error e) = [] := rfl

/-- Anything kept by the per-listing loop is a parsed record that passed
`meets_criteria`. -/
theorem mem_processListing_elim (E : Extractors) (city now : String)
    (o : Except String ListingNode) (a : Apartment)
    (h : a ∈ processListing E city now o) :
    (∃ nd, a = parse_immoscout_listing_enhanced E city now nd)
    ∧ meets_criteria a = true := by
  cases o with
  | error e => simp [processListing] at h
  | ok nd =>
    have h2 : a ∈
        (if meets_criteria (parse_immoscout_listing_enhanced E city now nd)
           = true
         then [parse_immoscout_listing_enhanced E city now nd] else []) := h
    by_cases hc :
        meets_criteria (parse_immoscout_listing_enhanced E city now nd) = true
    · rw [if_pos hc] at h2
      rw [List.mem_singleton] at h2
      exact ⟨⟨nd, h2⟩, h2 ▸ hc⟩
    · rw [if_neg hc] at h2
      simp at h2

/-- Anything returned by the URL-pattern loop comes from one attempt. -/
theorem mem_scrapeLoop_elim (E : Extractors) (city now : String)
    (a : Apartment) :
    ∀ attempts : List FetchResult, a ∈ scrapeLoop E city now attempts →
      ∃ fr ∈ attempts, a ∈ processAttempt E city now fr := by
  intro attempts
  induction attempts with
  | nil => intro h; simp [scrapeLoop] at h
  | cons fr rest ih =>
    intro h
    have h2 : a ∈
        (if (processAttempt E city now fr).isEmpty = true
         then scrapeLoop E city now rest
         else processAttempt E city now fr) := h
    by_cases he : (processAttempt E city now fr).isEmpty = true
    · rw [if_pos he] at h2
      obtain ⟨fr2, hm, ha⟩ := ih h2
      exact ⟨fr2, List.mem_cons_of_mem _ hm, ha⟩
    · rw [if_neg he] at h2
      exact ⟨fr, List.mem_cons_self fr rest, h2⟩

/-- Anything contributed by an attempt comes from one listing outcome. -/
theorem mem_processAttempt_elim (E : Extractors) (city now : String)
    (fr : FetchResult) (a : Apartment)
    (h : a ∈ processAttempt E city now fr) :
    ∃ o, a ∈ processListing E city now o := by
  cases fr with
  | httpError c => simp [processAttempt] at h
  | exn m => simp [processAttempt] at h
  | page ls =>
    have h2 : a ∈ processListings E city now (ls.take 5) := h
    obtain ⟨o, -, ho⟩ := List.mem_flatMap.mp h2
    exact ⟨o, ho⟩

/-- Every record returned by the ImmoScout24 scraper passed the criteria
filter, carries the requested city and the fixed source tag. -/
theorem mem_is24_elim (city : String) (mp mr ma : Int) (E : Extractors)
    (now : String) (attempts : List FetchResult) (a : Apartment)
    (h : a ∈ scrape_immobilienscout24 city mp mr ma E now attempts) :
    meets_criteria a = true ∧ a.city = city ∧ a.source = "ImmoScout24" := by
  obtain ⟨fr, -, hfr⟩ := mem_scrapeLoop_elim E city now a attempts h
  obtain ⟨o, ho⟩ := mem_processAttempt_elim E city now fr a hfr
  obtain ⟨⟨nd, rfl⟩, hc⟩ := mem_processListing_elim E city now o a ho
  exact ⟨hc, rfl, rfl⟩

/-- A successful mock scrape is the filtered candidate list. -/
theorem scrape_mock_eq (city now : String) (cs : Nat)
    (seeds : Nat → MockSeed) (l : List Apartment)
    (h : scrape_mock_data city now cs seeds = some l) :
    ∃ locs, locations city = some locs ∧
      l = (mockCandidates city now locs (3 + cs % 6) seeds).filter
            meets_criteria := by
  unfold scrape_mock_data at h
  cases hl : locations city with
  | none => rw [hl] at h; simp at h
  | some locs =>
    rw [hl] at h
    have h2 : (mockCandidates city now locs (3 + cs % 6) seeds).filter
        meets_criteria = l := Option.some.inj h
    exact ⟨locs, rfl, h2.symm⟩

/-- Every record of a successful mock scrape passed the criteria filter and
carries the requested city. -/
theorem mem_mock_elim (city now : String) (cs : Nat) (seeds : Nat → MockSeed)
    (l : List Apartment) (a : Apartment)
    (h : scrape_mock_data city now cs seeds = some l) (ha : a ∈ l) :
    meets_criteria a = true ∧ a.city = city := by
  obtain ⟨locs, -, rfl⟩ := scrape_mock_eq city now cs seeds l h
  have h2 := List.mem_filter.mp ha
  refine ⟨h2.2, ?_⟩
  have h3 : ∃ i, i < 3 + cs % 6 ∧ mockApartment city now locs i (seeds i) = a := by
    simpa [mockCandidates] using h2.1
  obtain ⟨i, -, rfl⟩ := h3
  rfl

/-- Every record a task contributes to `all_apartments` passed the criteria
filter and carries the task's city. -/
theorem mem_runTask_elim (tm : Bool) (t : SearchTask) (a : Apartment)
    (h : a ∈ runTask tm t) : meets_criteria a = true ∧ a.city = t.city := by
  unfold runTask at h
  by_cases htm : tm = true
  · rw [if_pos htm] at h
    cases hm : scrape_mock_data t.city t.env.now t.env.countSeed t.env.seeds with
    | none => rw [hm] at h; simp at h
    | some l =>
      rw [hm] at h
      exact mem_mock_elim t.city t.env.now t.env.countSeed t.env.seeds l a hm
        (by simpa using h)
  · rw [if_neg htm] at h
    by_cases h1 : t.source = "ImmoScout24"
    · rw [if_pos h1] at h
      have he := mem_is24_elim t.city t.env.max_price t.env.min_rooms
        t.env.min_area t.env.E t.env.now t.env.attempts a h
      exact ⟨he.1, he.2.1⟩
    · rw [if_neg h1] at h
      by_cases h2 : t.source = "Immonet"
      · rw [if_pos h2] at h
        cases hm : scrape_immonet t.city t.env.max_price t.env.min_rooms
            t.env.min_area t.env.now t.env.countSeed t.env.seeds with
        | none => rw [hm] at h; simp at h
        | some l =>
          rw [hm] at h
          unfold scrape_immonet at hm
          exact mem_mock_elim t.city t.env.now t.env.countSeed t.env.seeds l a
            hm (by simpa using h)
      · rw [if_neg h2] at h
        by_cases h3 : t.source = "eBay Kleinanzeigen"
        · rw [if_pos h3] at h
          cases hm : scrape_ebay_kleinanzeigen t.city t.env.max_price
              t.env.min_rooms t.env.min_area t.env.now t.env.countSeed
              t.env.seeds with
          | none => rw [hm] at h; simp at h
          | some l =>
            rw [hm] at h
            unfold scrape_ebay_kleinanzeigen at hm
            exact mem_mock_elim t.city t.env.now t.env.countSeed t.env.seeds l
              a hm (by simpa using h)
        · rw [if_neg h3] at h
          simp at h

/-- If every attempt contributes nothing, the URL-pattern loop returns the
initial empty list. -/
theorem scrapeLoop_eq_nil (E : Extractors) (city now : String) :
    ∀ attempts : List FetchResult,
      (∀ fr ∈ attempts, processAttempt E city now fr = []) →
      scrapeLoop E city now attempts = [] := by
  intro attempts
  induction attempts with
  | nil => intro _; rfl
  | cons fr rest ih =>
    intro h
    have h2 : scrapeLoop E city now (fr :: rest)
        = if (processAttempt E city now fr).isEmpty = true
          then scrapeLoop E city now rest
          else processAttempt E city now fr := rfl
    rw [h2, h fr (List.mem_cons_self fr rest)]
    simp only [List.isEmpty_nil, if_true]
    exact ih fun fr2 hm => h fr2 (List.mem_cons_of_mem _ hm)

/-- C4: filtering precedes aggregation.  Every record the ImmoScout24
scraper returns, and every record of a successful mock scrape (the
generator behind the Immonet and eBay Kleinanzeigen scrapers and test
mode), already satisfies `meets_criteria`; hence every record entering the
aggregated `all_apartments` table satisfies `meets_criteria`. -/
theorem filter_before_aggregation :
    (∀ (city : String) (mp mr ma : Int) (E : Extractors) (now : String)
        (attempts : List FetchResult) (a : Apartment),
        a ∈ scrape_immobilienscout24 city mp mr ma E now attempts →
          meets_criteria a = true)
    ∧ (∀ (city now : String) (cs : Nat) (seeds : Nat → MockSeed)
        (l : List Apartment) (a : Apartment),
        scrape_mock_data city now cs seeds = some l → a ∈ l →
          meets_criteria a = true)
    ∧ (∀ (tm : Bool) (tasks : List SearchTask) (a : Apartment),
        a ∈ all_apartments tm tasks → meets_criteria a = true) := by
  refine ⟨?_, ?_, ?_⟩
  · intro city mp mr ma E now attempts a h
    exact (mem_is24_elim city mp mr ma E now attempts a h).1
  · intro city now cs seeds l a h ha
    exact (mem_mock_elim city now cs seeds l a h ha).1
  · intro tm tasks a h
    obtain ⟨t, -, ht⟩ := List.mem_flatMap.mp h
    exact (mem_runTask_elim tm t a ht).1

theorem filter_before_aggregation_witness :
    meets_criteria mockApt0 = true := by
  exact filter_before_aggregation.2.2 true [sampleTask] mockApt0 (by decide)

/-- C5: total live-scrape failure raises nothing.  If every URL-pattern
attempt contributes no apartment (blocked responses, exceptions, listings
that all fail to parse or to meet the criteria), the ImmoScout24 scraper
returns the empty list; the Immonet and eBay Kleinanzeigen scrapers are
exactly the synthetic mock generator (both their `try` body and their
`except` handler delegate to it), and for the offered cities the mock
generator succeeds, so they return data instead of raising.  The model
consumes each fetched response once: there is no retry. -/
theorem total_failure_degrades (city : String) (mp mr ma : Int)
    (E : Extractors) (now : String) (attempts : List FetchResult) (cs : Nat)
    (seeds : Nat → MockSeed) :
    ((∀ fr ∈ attempts, processAttempt E city now fr = []) →
        scrape_immobilienscout24 city mp mr ma E now attempts = [])
    ∧ scrape_immonet city mp mr ma now cs seeds
        = scrape_mock_data city now cs seeds
    ∧ scrape_ebay_kleinanzeigen city mp mr ma now cs seeds
        = scrape_mock_data city now cs seeds
    ∧ (city ∈ CITIES →
        ∃ l, scrape_immonet city mp mr ma now cs seeds = some l) := by
  refine ⟨scrapeLoop_eq_nil E city now attempts, rfl, rfl, ?_⟩
  intro hc
  rcases show city = "München" ∨ city = "Augsburg" by
      simpa [CITIES] using hc with rfl | rfl
  · exact ⟨_, rfl⟩
  · exact ⟨_, rfl⟩

theorem total_failure_degrades_witness :
    scrape_immobilienscout24 "München" 750000 3 80 sampleExtractors
      "2025-01-01 00:00" [FetchResult.httpError 401, FetchResult.exn "x"]
      = []
    ∧ (scrape_immonet "München" 750000 3 80 "2025-01-01 00:00" 0 sampleSeeds
        ).isSome = true := by
  have h := total_failure_degrades "München" 750000 3 80 sampleExtractors
    "2025-01-01 00:00" [FetchResult.httpError 401, FetchResult.exn "x"]
    0 sampleSeeds
  refine ⟨h.1 (by decide), ?_⟩
  obtain ⟨l, hl⟩ := h.2.2.2 (by decide)
  rw [hl]
  rfl

/-- C6: failures are isolated.  A per-listing exception removes only that
listing's contribution: the examined run of listings with an exception
outcome processes to exactly the records of the remaining listings.  A
per-task failure removes only that task's contribution: the aggregated
table splits around any task, and if that task contributes nothing (for
instance because its scrape raised and the `except` caught it) the table
equals the one built from the remaining tasks alone. -/
theorem failure_isolation (E : Extractors) (city now e : String)
    (l1 l2 : List (Except String ListingNode)) (tm : Bool)
    (t1 t2 : List SearchTask) (bad : SearchTask) :
    processListings E city now (l1 ++ Except.error e :: l2)
        = processListings E city now l1 ++ processListings E city now l2
    ∧ processListings E city now (l1 ++ Except.error e :: l2)
        = processListings E city now (l1 ++ l2)
    ∧ all_apartments tm (t1 ++ bad :: t2)
        = all_apartments tm t1 ++ runTask tm bad ++ all_apartments tm t2
    ∧ (runTask tm bad = [] →
        all_apartments tm (t1 ++ bad :: t2)
          = all_apartments tm (t1 ++ t2)) := by
  refine ⟨?_, ?_, ?_, ?_⟩
  · simp [processListings, processListing_error]
  · simp [processListings, processListing_error]
  · simp [all_apartments, List.append_assoc]
  · intro h
    simp [all_apartments, h]

theorem failure_isolation_witness :
    all_apartments true ([sampleTask] ++ badCityTask :: [])
      = all_apartments true ([sampleTask] ++ []) := by
  exact (failure_isolation sampleExtractors "München" "2025-01-01 00:00" "e"
    [] [] true [sampleTask] [] badCityTask).2.2.2 (by decide)

/-- C7: the city field is confined to the two offered cities.  For either
offered city, every record any scraper produces for it carries exactly
that city; and since the UI restricts task cities to `CITIES`, every
record in the aggregated table carries one of the two city values. -/
theorem city_enum_invariant (city : String) (hc : city ∈ CITIES) :
    (∀ (mp mr ma : Int) (E : Extractors) (now : String)
        (attempts : List FetchResult) (a : Apartment),
        a ∈ scrape_immobilienscout24 city mp mr ma E now attempts →
          a.city = city)
    ∧ (∀ (now : String) (cs : Nat) (seeds : Nat → MockSeed)
        (l : List Apartment) (a : Apartment),
        scrape_mock_data city now cs seeds = some l → a ∈ l →
          a.city = city)
    ∧ (∀ (tm : Bool) (tasks : List SearchTask) (a : Apartment),
        (∀ t ∈ tasks, t.city ∈ CITIES) → a ∈ all_apartments tm tasks →
          a.city ∈ CITIES) := by
  refine ⟨?_, ?_, ?_⟩
  · intro mp mr ma E now attempts a h
    exact (mem_is24_elim city mp mr ma E now attempts a h).2.1
  · intro now cs seeds l a h ha
    exact (mem_mock_elim city now cs seeds l a h ha).2
  · intro tm tasks a htasks h
    obtain ⟨t, hmem, ht⟩ := List.mem_flatMap.mp h
    rw [(mem_runTask_elim tm t a ht).2]
    exact htasks t hmem

theorem city_enum_invariant_witness : mockApt0.city = "München" := by
  exact (city_enum_invariant "München" (by decide)).2.1 "2025-01-01 00:00" 0
    sampleSeeds
    ((scrape_mock_data "München" "2025-01-01 00:00" 0 sampleSeeds).getD [])
    mockApt0 (by decide) (by decide)

/-- C8: the slider thresholds passed to the scraper entry points never
reach the acceptance predicate.  With the fetched responses and random
draws fixed, each scraper's output is identical under any two choices of
`max_price` / `min_rooms` / `min_area` (they reach only the query string,
i.e. the already-fixed responses), and `meets_criteria` is determined
solely by the module constants `MAX_PRICE = 750000`, `MIN_ROOMS = 3` and
`MIN_AREA = 80`. -/
theorem criteria_independent_of_sliders (city : String) (E : Extractors)
    (now : String) (attempts : List FetchResult) (cs : Nat)
    (seeds : Nat → MockSeed) (mp1 mr1 ma1 mp2 mr2 ma2 : Int) :
    scrape_immobilienscout24 city mp1 mr1 ma1 E now attempts
        = scrape_immobilienscout24 city mp2 mr2 ma2 E now attempts
    ∧ scrape_immonet city mp1 mr1 ma1 now cs seeds
        = scrape_immonet city mp2 mr2 ma2 now cs seeds
    ∧ scrape_ebay_kleinanzeigen city mp1 mr1 ma1 now cs seeds
        = scrape_ebay_kleinanzeigen city mp2 mr2 ma2 now cs seeds
    ∧ (∀ a : Apartment, meets_criteria a = true ↔
        (a.price ≤ 750000 ∧ (3 : ℚ) ≤ a.rooms ∧ (80 : Int) ≤ a.area
          ∧ 0 < a.price)) := by
  refine ⟨rfl, rfl, rfl, ?_⟩
  intro a
  have h1 : MAX_PRICE = 750000 := rfl
  have h2 : ((MIN_ROOMS : Int) : ℚ) = 3 := rfl
  have h3 : MIN_AREA = 80 := rfl
  simp [meets_criteria, h1, h2, h3, and_assoc]

/-- A single listing contributes at most one record. -/
theorem processListing_length (E : Extractors) (city now : String)
    (o : Except String ListingNode) :
    (processListing E city now o).length ≤ 1 := by
  cases o with
  | error e => simp [processListing_error]
  | ok nd =>
    have h : processListing E city now (Except.ok nd)
        = if meets_criteria (parse_immoscout_listing_enhanced E city now nd)
            = true
          then [parse_immoscout_listing_enhanced E city now nd] else [] :=
      rfl
    rw [h]
    split <;> simp

/-- A run of listings contributes at most one record each. -/
theorem processListings_length (E : Extractors) (city now : String) :
    ∀ ls : List (Except String ListingNode),
      (processListings E city now ls).length ≤ ls.length := by
  intro ls
  induction ls with
  | nil => simp [processListings]
  | cons o rest ih =>
    have h : processListings E city now (o :: rest)
        = processListing E city now o ++ processListings E city now rest :=
      rfl
    rw [h, List.length_append]
    have h1 := processListing_length E city now o
    simp only [List.length_cons]
    omega

/-- C9: the ImmoScout24 scraper looks at `listings[:5]` only, so one page
contributes at most 5 records, one attempt contributes at most 5 records,
and (since the loop returns the records of a single attempt) the whole
scraper returns at most 5 records, however many listing nodes each page
contains. -/
theorem at_most_five_per_page (E : Extractors) (city now : String)
    (ls : List (Except String ListingNode)) (fr : FetchResult)
    (mp mr ma : Int) (attempts : List FetchResult) :
    (processPage E city now ls).length ≤ 5
    ∧ (processAttempt E city now fr).length ≤ 5
    ∧ (scrape_immobilienscout24 city mp mr ma E now attempts).length ≤ 5 := by
  have hpage : ∀ ls2 : List (Except String ListingNode),
      (processPage E city now ls2).length ≤ 5 := by
    intro ls2
    calc (processPage E city now ls2).length
        ≤ (ls2.take 5).length := processListings_length E city now (ls2.take 5)
      _ ≤ 5 := by
          rw [List.length_take]
          exact Nat.min_le_left 5 ls2.length
  have hatt : ∀ fr2 : FetchResult,
      (processAttempt E city now fr2).length ≤ 5 := by
    intro fr2
    cases fr2 with
    | httpError c => simp [processAttempt]
    | exn m => simp [processAttempt]
    | page ls2 => exact hpage ls2
  refine ⟨hpage ls, hatt fr, ?_⟩
  induction attempts with
  | nil => simp [scrape_immobilienscout24, scrapeLoop]
  | cons fr2 rest ih =>
    have h : scrape_immobilienscout24 city mp mr ma E now (fr2 :: rest)
        = if (processAttempt E city now fr2).isEmpty = true
          then scrapeLoop E city now rest
          else processAttempt E city now fr2 := rfl
    rw [h]
    split
    · exact ih
    · exact hatt fr2

/-- Range facts about one mock candidate: `randint(400000, 750000)`,
`choice([3, 3.5, 4, 4.5, 5])`, `randint(80, 140)`, and the requested
city. -/
theorem mockApartment_fields (city now : String) (locs : List String)
    (i : Nat) (s : MockSeed) :
    400000 ≤ (mockApartment city now locs i s).price
    ∧ (mockApartment city now locs i s).price ≤ 750000
    ∧ (mockApartment city now locs i s).rooms ∈ roomChoices
    ∧ 80 ≤ (mockApartment city now locs i s).area
    ∧ (mockApartment city now locs i s).area ≤ 140
    ∧ (mockApartment city now locs i s).city = city := by
  refine ⟨?_, ?_, ?_, ?_, ?_, rfl⟩
  · show (400000 : Int) ≤ 400000 + ((s.priceSeed % 350001 : Nat) : Int)
    omega
  · show 400000 + ((s.priceSeed % 350001 : Nat) : Int) ≤ 750000
    have h := Nat.mod_lt s.priceSeed (show 0 < 350001 by norm_num)
    omega
  · show roomChoices.getD (s.roomsSeed % roomChoices.length) 0 ∈ roomChoices
    have h5 : s.roomsSeed % roomChoices.length < roomChoices.length :=
      Nat.mod_lt _ (by norm_num [roomChoices])
    rw [List.getD_eq_getElem?_getD, List.getElem?_eq_getElem h5]
    simp only [Option.getD_some]
    exact List.getElem_mem h5
  · show (80 : Int) ≤ 80 + ((s.areaSeed % 61 : Nat) : Int)
    omega
  · show 80 + ((s.areaSeed % 61 : Nat) : Int) ≤ 140
    have h := Nat.mod_lt s.areaSeed (show 0 < 61 by norm_num)
    omega

/-- Every mock candidate already satisfies the criteria filter. -/
theorem mockApartment_meets (city now : String) (locs : List String)
    (i : Nat) (s : MockSeed) :
    meets_criteria (mockApartment city now locs i s) = true := by
  obtain ⟨h1, h2, h3, h4, h5, -⟩ := mockApartment_fields city now locs i s
  have hr : ((MIN_ROOMS : Int) : ℚ) ≤ (mockApartment city now locs i s).rooms := by
    have hall : ∀ r ∈ roomChoices, ((MIN_ROOMS : Int) : ℚ) ≤ r := by
      intro r hr
      fin_cases hr <;> norm_num [MIN_ROOMS]
    exact hall _ h3
  have hmp : (mockApartment city now locs i s).price ≤ MAX_PRICE := h2
  have hma : MIN_AREA ≤ (mockApartment city now locs i s).area := h4
  have hpos : 0 < (mockApartment city now locs i s).price := by omega
  simp [meets_criteria, hmp, hr, hma, hpos]

/-- C10: for either offered city, the mock generator succeeds; every
candidate has price in [400000, 750000], rooms among
{3, 3.5, 4, 4.5, 5}, area in [80, 140], and the requested city, so each
passes `meets_criteria`; the internal filter rejects nothing, and the
returned list has exactly `3 + countSeed % 6` records — between 3 and 8
inclusive. -/
theorem mock_data_in_range (city now : String) (cs : Nat)
    (seeds : Nat → MockSeed) (hc : city ∈ CITIES) :
    ∃ l, scrape_mock_data city now cs seeds = some l
      ∧ (∀ a ∈ l, 400000 ≤ a.price ∧ a.price ≤ 750000
          ∧ a.rooms ∈ roomChoices ∧ 80 ≤ a.area ∧ a.area ≤ 140
          ∧ a.city = city ∧ meets_criteria a = true)
      ∧ l.length = 3 + cs % 6 ∧ 3 ≤ l.length ∧ l.length ≤ 8 := by
  obtain ⟨locs, hlocs⟩ : ∃ locs, locations city = some locs := by
    rcases show city = "München" ∨ city = "Augsburg" by
        simpa [CITIES] using hc with rfl | rfl
    · exact ⟨_, rfl⟩
    · exact ⟨_, rfl⟩
  have hfil : (mockCandidates city now locs (3 + cs % 6) seeds).filter
      meets_criteria = mockCandidates city now locs (3 + cs % 6) seeds := by
    rw [List.filter_eq_self]
    intro a ha
    have h3 : ∃ i, i < 3 + cs % 6
        ∧ mockApartment city now locs i (seeds i) = a := by
      simpa [mockCandidates] using ha
    obtain ⟨i, -, rfl⟩ := h3
    exact mockApartment_meets city now locs i (seeds i)
  have hlen : (mockCandidates city now locs (3 + cs % 6) seeds).length
      = 3 + cs % 6 := by
    simp [mockCandidates]
  refine ⟨mockCandidates city now locs (3 + cs % 6) seeds, ?_, ?_, ?_, ?_, ?_⟩
  · unfold scrape_mock_data
    rw [hlocs]
    simp [hfil]
  · intro a ha
    have h3 : ∃ i, i < 3 + cs % 6
        ∧ mockApartment city now locs i (seeds i) = a := by
      simpa [mockCandidates] using ha
    obtain ⟨i, -, rfl⟩ := h3
    obtain ⟨f1, f2, f3, f4, f5, f6⟩ := mockApartment_fields city now locs i
      (seeds i)
    exact ⟨f1, f2, f3, f4, f5, f6, mockApartment_meets city now locs i
      (seeds i)⟩
  · exact hlen
  · rw [hlen]; omega
  · rw [hlen]
    have h := Nat.mod_lt cs (show 0 < 6 by norm_num)
    omega

theorem mock_data_in_range_witness :
    (scrape_mock_data "München" "2025-01-01 00:00" 0 sampleSeeds).isSome
      = true
    ∧ ((scrape_mock_data "München" "2025-01-01 00:00" 0 sampleSeeds).getD []
        ).length = 3 := by
  obtain ⟨l, h1, -, h3, -⟩ := mock_data_in_range "München" "2025-01-01 00:00"
    0 sampleSeeds (by decide)
  refine ⟨by rw [h1]; rfl, ?_⟩
  rw [h1]
  simpa using h3
